import Mathlib

/-
  Verification of the custom-api repository (a task-management REST server).

  The development shallowly embeds the JavaScript source:
  - `TM` models src/task-management-api/server (models/Task.js, models/User.js,
    routes/tasks.js, middleware/validation.js);
  - `US` models the standalone Express server in src/unnamed/part_000
    (User/Task/Category/Project schemas and the /api/users, /api/tasks,
    /api/projects handlers plus the global error handler).

  Conventions: Mongo ObjectIds are Lean `String`s, timestamps are `Nat`
  (milliseconds since epoch order is all that matters), documents are records,
  a collection is a `List` of records, and each route handler is a pure
  function from the store and the request to a response and the new store.
  JavaScript truthiness of a possibly-missing string field is modelled by
  comparing `Option.getD "" ` with the empty string.
-/

/-- Embedding of the JavaScript `Math.ceil(a / b)` applied to the exact
rational quotient of two non-negative integers, as used by the pagination
code of both servers. -/
def mathCeilDiv (a b : Nat) : Nat := Nat.ceil ((a : ℚ) / (b : ℚ))

/-- Case-insensitive substring containment over character lists: does `pat`
start at the head of `hay`? Helper for the `$regex ... $options: i` filters. -/
def headMatches : List Char → List Char → Bool
  | [], _ => true
  | _ :: _, [] => false
  | a :: as, b :: bs => a == b && headMatches as bs

/-- Does `pat` occur contiguously anywhere inside `hay`? -/
def occursIn (pat hay : List Char) : Bool :=
  match hay with
  | [] => headMatches pat []
  | _ :: t => headMatches pat hay || occursIn pat t

/-- Embedding of the case-insensitive regex substring test
`{ $regex: pat, $options: i }` applied to a stored string. -/
def strContainsCI (hay pat : String) : Bool :=
  occursIn pat.toLower.data hay.toLower.data

namespace TM

/-- User document of server/models/User.js (the fields the verified routes
touch; schema sub-objects such as preferences and the avatar generator are
infrastructure the claims never mention). -/
structure User where
  id : String
  name : String
  email : String
  password : String
  role : String
  department : Option String
  position : Option String
  phone : Option String
  isActive : Bool
deriving DecidableEq

/-- A serialized user: the userSchema toJSON transform and the
getPublicProfile instance method both delete the password before the
document leaves the server, so the public shape has no password at all. -/
structure PublicProfile where
  id : String
  name : String
  email : String
  role : String
  department : Option String
  position : Option String
  phone : Option String
  isActive : Bool
deriving DecidableEq

/-- Embedding of userSchema toJSON transform / getPublicProfile from
models/User.js: copy every field except password. -/
def getPublicProfile (u : User) : PublicProfile :=
  { id := u.id, name := u.name, email := u.email, role := u.role,
    department := u.department, position := u.position, phone := u.phone,
    isActive := u.isActive }

/-- Task document of server/models/Task.js (attachments are omitted: no
route or claim reads them). -/
structure Task where
  id : String
  title : String
  description : Option String
  status : String
  priority : String
  category : String
  dueDate : Option Nat
  assignedTo : Option String
  tags : List String
  completedAt : Option Nat
  estimatedHours : Option Int
  actualHours : Option Int
  createdAt : Nat
  updatedAt : Nat
deriving DecidableEq

/-- The Task invariant stated in the spec: completedAt is present exactly
when the status is completed. -/
def completedAtInvariant (t : Task) : Prop :=
  t.completedAt ≠ none ↔ t.status = "completed"

instance (t : Task) : Decidable (completedAtInvariant t) := by
  unfold completedAtInvariant
  infer_instance

/-- Embedding of the isOverdue virtual of models/Task.js:
dueDate is set, lies in the past, and the task is not completed
(a missing dueDate makes the JavaScript expression falsy). -/
def isOverdue (now : Nat) (t : Task) : Bool :=
  (match t.dueDate with
   | some d => decide (d < now)
   | none => false) && t.status != "completed"

/-- Embedding of the pre-save middleware of models/Task.js (lines 92-101):
when the status path was modified, set completedAt on entering the
completed status and clear it on leaving it.  Runs only on
Document.save, never on findByIdAndUpdate. -/
def preSaveStatus (now : Nat) (t : Task) (statusModified : Bool) : Task :=
  if statusModified then
    if t.status == "completed" && t.completedAt.isNone then
      { t with completedAt := some now }
    else if t.status != "completed" && t.completedAt.isSome then
      { t with completedAt := none }
    else t
  else t

/-- Request body destructured by POST / and PUT /:id in routes/tasks.js
(fields absent from the JSON body are none). -/
structure TaskBody where
  title : Option String
  description : Option String
  status : Option String
  priority : Option String
  category : Option String
  dueDate : Option Nat
  assignedTo : Option String
  tags : Option (List String)
  estimatedHours : Option Int
  actualHours : Option Int
deriving DecidableEq

/-- One field-level entry of the 400 payload built by
handleValidationErrors: { field: error.path, message: error.msg,
value: error.value }. -/
structure FieldError where
  field : String
  message : String
  value : Option String
deriving DecidableEq

/-- Response of a task write handler: HTTP status, success flag, message,
field errors (validation failures only) and the written document. -/
structure TaskWriteResult where
  status : Nat
  success : Bool
  message : String
  errors : List FieldError
  task : Option Task
deriving DecidableEq

def statusEnum : List String := ["pending", "in-progress", "completed", "cancelled"]

def priorityEnum : List String := ["low", "medium", "high", "urgent"]

def categoryEnum : List String := ["work", "personal", "shopping", "health", "education", "other"]

def isHexDigitChar (c : Char) : Bool :=
  (('0' ≤ c) && (c ≤ '9')) || (('a' ≤ c) && (c ≤ 'f')) || (('A' ≤ c) && (c ≤ 'F'))

/-- isMongoId of the validator library: 24 hexadecimal characters. -/
def isMongoIdB (s : String) : Bool := s.length == 24 && s.data.all isHexDigitChar

/-- body(title).notEmpty.isLength(1..100): a missing or empty title fails
both validators of the chain, so it reports two errors. -/
def titleErrors (b : TaskBody) : List FieldError :=
  (if b.title.getD "" = "" then
    [{ field := "title", message := "Title is required", value := b.title }]
   else []) ++
  (if 1 ≤ (b.title.getD "").length ∧ (b.title.getD "").length ≤ 100 then []
   else [{ field := "title", message := "Title must be between 1 and 100 characters",
           value := b.title }])

def descriptionErrors (b : TaskBody) : List FieldError :=
  match b.description with
  | none => []
  | some d =>
      if d.length ≤ 500 then []
      else [{ field := "description", message := "Description cannot exceed 500 characters",
              value := some d }]

/-- body(f).optional().isIn(allowed): absent passes, present must be a
member of the enum. -/
def enumErrors (fieldName : String) (v : Option String) (allowed : List String)
    (msg : String) : List FieldError :=
  match v with
  | none => []
  | some s => if allowed.contains s then [] else [{ field := fieldName, message := msg, value := some s }]

/-- body(dueDate).optional().custom(future): the supplied date must be
strictly in the future (ISO-8601 parsing is done by the validator
library and is treated as transport). -/
def dueDateErrors (now : Nat) (b : TaskBody) : List FieldError :=
  match b.dueDate with
  | none => []
  | some d =>
      if now < d then []
      else [{ field := "dueDate", message := "Due date must be in the future",
              value := some (toString d) }]

def assignedToErrors (b : TaskBody) : List FieldError :=
  match b.assignedTo with
  | none => []
  | some a =>
      if isMongoIdB a then []
      else [{ field := "assignedTo", message := "Assigned user ID must be a valid MongoDB ObjectId",
              value := some a }]

/-- body(tags.*).optional().isLength(1..20): one error per offending tag,
reported under its wildcard path. -/
def tagsErrors (b : TaskBody) : List FieldError :=
  match b.tags with
  | none => []
  | some ts =>
      ts.enum.filterMap (fun it =>
        if 1 ≤ it.2.length ∧ it.2.length ≤ 20 then none
        else some { field := "tags[" ++ toString it.1 ++ "]",
                    message := "Each tag must be between 1 and 20 characters",
                    value := some it.2 })

def estimatedHoursErrors (b : TaskBody) : List FieldError :=
  match b.estimatedHours with
  | none => []
  | some x =>
      if 0 ≤ x ∧ x ≤ 1000 then []
      else [{ field := "estimatedHours", message := "Estimated hours must be between 0 and 1000",
              value := some (toString x) }]

def actualHoursErrors (b : TaskBody) : List FieldError :=
  match b.actualHours with
  | none => []
  | some x =>
      if 0 ≤ x then []
      else [{ field := "actualHours", message := "Actual hours must be non-negative",
              value := some (toString x) }]

/-- taskValidationRules.create of middleware/validation.js: every rule of
the table is evaluated and all resulting field errors are concatenated in
declaration order; no rule short-circuits another field. -/
def validateTaskCreate (now : Nat) (b : TaskBody) : List FieldError :=
  titleErrors b ++ descriptionErrors b ++
  enumErrors "status" b.status statusEnum
    "Status must be pending, in-progress, completed, or cancelled" ++
  enumErrors "priority" b.priority priorityEnum
    "Priority must be low, medium, high, or urgent" ++
  enumErrors "category" b.category categoryEnum
    "Category must be work, personal, shopping, health, education, or other" ++
  dueDateErrors now b ++ assignedToErrors b ++ tagsErrors b ++
  estimatedHoursErrors b ++ actualHoursErrors b

/-- POST / handler of routes/tasks.js (lines 116-170), after validation:
reject a dangling assignedTo reference with 400 before constructing the
document; otherwise build the task with the destructuring and schema
defaults, run the pre-save middleware (a fresh document has a modified
status path) and append it to the collection. -/
def createTask (users : List User) (st : List Task) (b : TaskBody) (now : Nat)
    (fresh : String) : TaskWriteResult × List Task :=
  let a := b.assignedTo.getD ""
  if a != "" && (users.find? (fun u => u.id == a)).isNone then
    ({ status := 400, success := false, message := "Assigned user not found",
       errors := [], task := none }, st)
  else
    let t : Task :=
      { id := fresh, title := b.title.getD "", description := b.description,
        status := b.status.getD "pending", priority := b.priority.getD "medium",
        category := b.category.getD "other", dueDate := b.dueDate,
        assignedTo := b.assignedTo, tags := b.tags.getD [],
        completedAt := none, estimatedHours := none, actualHours := none,
        createdAt := now, updatedAt := now }
    let saved := preSaveStatus now t true
    ({ status := 201, success := true, message := "Task created successfully",
       errors := [], task := some saved }, st ++ [saved])

/-- The POST / route: taskValidationRules.create, then
handleValidationErrors (which answers 400 with every collected field error
and never reaches the handler), then the create handler. -/
def postTasksEndpoint (users : List User) (st : List Task) (b : TaskBody)
    (now : Nat) (fresh : String) : TaskWriteResult × List Task :=
  match validateTaskCreate now b with
  | [] => createTask users st b now fresh
  | errs =>
      ({ status := 400, success := false, message := "Validation failed",
         errors := errs, task := none }, st)

/-- findByIdAndUpdate document merge used by PUT /:id: Mongoose drops the
keys whose value is undefined, so only the fields present in the body are
overwritten; completedAt is not part of the update object and therefore
never changes on this path. -/
def applyPut (t : Task) (b : TaskBody) (now : Nat) : Task :=
  { t with
    title := b.title.getD t.title,
    description := (match b.description with | some d => some d | none => t.description),
    status := b.status.getD t.status,
    priority := b.priority.getD t.priority,
    category := b.category.getD t.category,
    dueDate := (match b.dueDate with | some d => some d | none => t.dueDate),
    assignedTo := (match b.assignedTo with | some a => some a | none => t.assignedTo),
    tags := b.tags.getD t.tags,
    updatedAt := now }

/-- PUT /:id handler of routes/tasks.js (lines 175-239): 404 when the task
is missing, 400 when the supplied assignedTo does not resolve, otherwise a
findByIdAndUpdate that bypasses the pre-save middleware. -/
def putTask (users : List User) (st : List Task) (id : String) (b : TaskBody)
    (now : Nat) : TaskWriteResult × List Task :=
  match st.find? (fun t => t.id == id) with
  | none =>
      ({ status := 404, success := false, message := "Task not found",
         errors := [], task := none }, st)
  | some _ =>
      let a := b.assignedTo.getD ""
      if a != "" && (users.find? (fun u => u.id == a)).isNone then
        ({ status := 400, success := false, message := "Assigned user not found",
           errors := [], task := none }, st)
      else
        let st' := st.map (fun t => if t.id == id then applyPut t b now else t)
        ({ status := 200, success := true, message := "Task updated successfully",
           errors := [], task := st'.find? (fun t => t.id == id) }, st')

/-- PATCH /:id/status handler of routes/tasks.js (lines 273-309): a
findByIdAndUpdate whose update object is status, updatedAt and, only when
the new status is completed, a fresh completedAt; the conditional spread
adds no completedAt key otherwise, so an existing value is left behind. -/
def patchStatus (st : List Task) (id : String) (s : String) (now : Nat) :
    TaskWriteResult × List Task :=
  match st.find? (fun t => t.id == id) with
  | none =>
      ({ status := 404, success := false, message := "Task not found",
         errors := [], task := none }, st)
  | some _ =>
      let st' := st.map (fun t =>
        if t.id == id then
          { t with status := s, updatedAt := now,
                   completedAt := if s == "completed" then some now else t.completedAt }
        else t)
      ({ status := 200, success := true, message := "Task status updated successfully",
         errors := [], task := st'.find? (fun t => t.id == id) }, st')

/-- Response of GET /:id. -/
structure GetTaskResult where
  status : Nat
  task : Option Task
deriving DecidableEq

/-- GET /:id handler of routes/tasks.js (lines 87-111): findById, 404 when
absent. -/
def getTask (st : List Task) (id : String) : GetTaskResult :=
  match st.find? (fun t => t.id == id) with
  | none => { status := 404, task := none }
  | some t => { status := 200, task := some t }

end TM

namespace US

/-- User document of the userSchema in the standalone server. -/
structure UserU where
  id : String
  username : String
  email : String
  password : String
  isActive : Bool
  createdAt : Nat
deriving DecidableEq

/-- A user as emitted by the /api/users handlers: every response path
either selects -password or deletes the password key, so the shape that
leaves the server has no password field. -/
structure PublicUserU where
  id : String
  username : String
  email : String
  isActive : Bool
  createdAt : Nat
deriving DecidableEq

/-- select(-password) / delete userResponse.password: copy everything but
the password. -/
def serializeUserU (u : UserU) : PublicUserU :=
  { id := u.id, username := u.username, email := u.email,
    isActive := u.isActive, createdAt := u.createdAt }

/-- Task document of the taskSchema in the standalone server. -/
structure TaskU where
  id : String
  title : String
  description : Option String
  priority : String
  status : String
  dueDate : Option Nat
  userId : String
  createdAt : Nat
  updatedAt : Nat
deriving DecidableEq

/-- Project document of the projectSchema in the standalone server. -/
structure ProjectU where
  id : String
  name : String
  description : Option String
  status : String
  startDate : Nat
  endDate : Option Nat
  userId : String
  tasks : List String
  createdAt : Nat
deriving DecidableEq

/-- The three collections the cascade-delete touches (categories have no
relationships and never participate in the verified claims). -/
structure StoreU where
  users : List UserU
  tasks : List TaskU
  projects : List ProjectU
deriving DecidableEq

/-- Response of a handler that returns no document payload. -/
structure SimpleResultU where
  status : Nat
  message : String
deriving DecidableEq

/-- Response of a user-returning handler. -/
structure UserResultU where
  status : Nat
  message : String
  data : Option PublicUserU
deriving DecidableEq

/-- Response of a task-returning handler. -/
structure TaskResultU where
  status : Nat
  message : String
  data : Option TaskU
deriving DecidableEq

/-- Body of POST /api/users. -/
structure UserBodyU where
  username : Option String
  email : Option String
  password : Option String
deriving DecidableEq

/-- Body of POST /api/tasks. -/
structure TaskBodyU where
  title : Option String
  description : Option String
  priority : Option String
  status : Option String
  dueDate : Option Nat
  userId : Option String
deriving DecidableEq

/-- Message template of the global error handler for a Mongo duplicate-key
error (code 11000): `${field} already exists`, answered with HTTP 400. -/
def duplicateMsg (field : String) : String := field ++ " already exists"

/-- POST /api/users handler (part_000 lines 120-141) combined with the
global error handler (lines 544-571): missing required fields give 400; a
save that violates one of the unique indexes (username, email) raises the
Mongo duplicate-key error, which the global handler maps to HTTP 400 with
the `${field} already exists` message; otherwise the user is inserted and
returned without its password. -/
def createUserU (st : StoreU) (b : UserBodyU) (fresh : String) (now : Nat) :
    UserResultU × StoreU :=
  if b.username.getD "" = "" ∨ b.email.getD "" = "" ∨ b.password.getD "" = "" then
    ({ status := 400, message := "Username, email, and password are required",
       data := none }, st)
  else
    match st.users.find? (fun u => u.username == b.username.getD "") with
    | some _ => ({ status := 400, message := duplicateMsg "username", data := none }, st)
    | none =>
        match st.users.find? (fun u => u.email == b.email.getD "") with
        | some _ => ({ status := 400, message := duplicateMsg "email", data := none }, st)
        | none =>
            let u : UserU :=
              { id := fresh, username := b.username.getD "",
                email := b.email.getD "", password := b.password.getD "",
                isActive := true, createdAt := now }
            ({ status := 201, message := "User created successfully",
               data := some (serializeUserU u) },
             { st with users := st.users ++ [u] })

/-- DELETE /api/users/:id handler (part_000 lines 168-186):
findByIdAndDelete removes the matched user or answers 404 before the
cascade runs; on success every task and project whose userId equals the
deleted id is removed as well. -/
def deleteUserU (st : StoreU) (uid : String) : SimpleResultU × StoreU :=
  match st.users.find? (fun u => u.id == uid) with
  | none => ({ status := 404, message := "User not found" }, st)
  | some _ =>
      ({ status := 200, message := "User and associated data deleted successfully" },
       { users := st.users.eraseP (fun u => u.id == uid),
         tasks := st.tasks.filter (fun t => !(t.userId == uid)),
         projects := st.projects.filter (fun p => !(p.userId == uid)) })

/-- POST /api/tasks handler (part_000 lines 219-255): title and userId are
required; the userId reference is resolved against the users collection
and a dangling reference is rejected with 400 before anything is
persisted. -/
def createTaskU (st : StoreU) (b : TaskBodyU) (fresh : String) (now : Nat) :
    TaskResultU × StoreU :=
  if b.title.getD "" = "" ∨ b.userId.getD "" = "" then
    ({ status := 400, message := "Title and userId are required", data := none }, st)
  else
    match st.users.find? (fun u => u.id == b.userId.getD "") with
    | none => ({ status := 400, message := "Invalid userId", data := none }, st)
    | some _ =>
        let t : TaskU :=
          { id := fresh, title := b.title.getD "", description := b.description,
            priority := b.priority.getD "medium", status := b.status.getD "pending",
            dueDate := b.dueDate, userId := b.userId.getD "",
            createdAt := now, updatedAt := now }
        ({ status := 201, message := "Task created successfully", data := some t },
         { st with tasks := st.tasks ++ [t] })

/-- Query parameters of GET /api/tasks in the standalone server. -/
structure TaskListParamsU where
  page : Nat
  limit : Nat
  status : Option String
  priority : Option String
  userId : Option String
deriving DecidableEq

/-- Filter object built by GET /api/tasks: exact-match predicates for each
supplied parameter. -/
def taskQueryU (p : TaskListParamsU) (t : TaskU) : Bool :=
  (match p.status with | none => true | some s => t.status == s) &&
  (match p.priority with | none => true | some s => t.priority == s) &&
  (match p.userId with | none => true | some s => t.userId == s)

/-- Task.find(query) of the standalone server. -/
def findTasksU (st : StoreU) (p : TaskListParamsU) : List TaskU :=
  st.tasks.filter (taskQueryU p)

/-- Pagination envelope of the standalone list endpoints:
{ page, limit, total, pages: Math.ceil(total / limit) }. -/
structure PaginationU where
  page : Nat
  limit : Nat
  total : Nat
  pages : Nat
deriving DecidableEq

/-- skip((page - 1) * limit) used by every standalone list endpoint. -/
def skipU (page limit : Nat) : Nat := (page - 1) * limit

/-- Response of GET /api/tasks. -/
structure TaskListResponseU where
  data : List TaskU
  pagination : PaginationU
deriving DecidableEq

/-- GET /api/tasks handler (part_000 lines 190-216): filter, then the
skip/limit window (Mongo applies skip before limit), and the count of all
matching documents in the pagination envelope.  The createdAt sort only
permutes the window and is immaterial to the verified claims. -/
def listTasksU (st : StoreU) (p : TaskListParamsU) : TaskListResponseU :=
  let found := findTasksU st p
  { data := (found.drop (skipU p.page p.limit)).take p.limit,
    pagination := { page := p.page, limit := p.limit, total := found.length,
                    pages := mathCeilDiv found.length p.limit } }

/-- Filter of GET /api/users: status=active means isActive true, any other
supplied status means isActive false, no status means no filter. -/
def userQueryU (statusParam : Option String) (u : UserU) : Bool :=
  match statusParam with
  | none => true
  | some s => u.isActive == (s == "active")

def usersFilteredU (st : StoreU) (statusParam : Option String) : List UserU :=
  st.users.filter (userQueryU statusParam)

/-- Response of GET /api/users: the documents are password-free. -/
structure UserListResponseU where
  data : List PublicUserU
  pagination : PaginationU
deriving DecidableEq

/-- GET /api/users handler (part_000 lines 95-117): filter, select
-password, the skip/limit window and the pagination envelope. -/
def listUsersU (st : StoreU) (page limit : Nat) (statusParam : Option String) :
    UserListResponseU :=
  let found := usersFilteredU st statusParam
  { data := ((found.drop (skipU page limit)).take limit).map serializeUserU,
    pagination := { page := page, limit := limit, total := found.length,
                    pages := mathCeilDiv found.length limit } }

end US

namespace TM

/-- Query-string parameters of GET /api/tasks (routes/tasks.js lines
12-23) with their defaults; `overdue` is kept as the raw string the code
compares against the literal true. -/
structure ListParams where
  page : Nat
  limit : Nat
  status : Option String
  priority : Option String
  category : Option String
  assignedTo : Option String
  search : Option String
  sortBy : String
  sortOrder : String
  overdue : String
deriving DecidableEq

/-- The two shapes the status key of the Mongo query object can take:
an exact match written by the status parameter, or the `$ne completed`
predicate written by the overdue branch over the same key. -/
inductive StatusCond where
  | eqStatus (s : String)
  | neCompleted
deriving DecidableEq

/-- The structured Mongo query object assembled by GET /api/tasks. -/
structure TaskQuery where
  status : Option StatusCond
  priority : Option String
  category : Option String
  assignedTo : Option String
  search : Option String
  dueLt : Option Nat
deriving DecidableEq

/-- Query builder of GET /api/tasks (routes/tasks.js lines 26-45): the
equality filters and the search predicate are assigned first; when
overdue === true the handler then assigns `dueDate: { $lt: now }` and
overwrites the status key with `{ $ne: completed }`. -/
def buildTaskQuery (now : Nat) (p : ListParams) : TaskQuery :=
  let q : TaskQuery :=
    { status := p.status.map StatusCond.eqStatus, priority := p.priority,
      category := p.category, assignedTo := p.assignedTo, search := p.search,
      dueLt := none }
  if p.overdue = "true" then
    { q with dueLt := some now, status := some StatusCond.neCompleted }
  else q

def matchesStatusCond : StatusCond → String → Bool
  | StatusCond.eqStatus s, st => st == s
  | StatusCond.neCompleted, st => st != "completed"

/-- Whether a stored task satisfies the structured query: exact matches on
the enum and reference keys, the case-insensitive `$or` search over title
and description (a document without a description cannot match through
that branch), and the `$lt` predicate on dueDate (a document without a
dueDate never satisfies `$lt`). -/
def matchesQuery (q : TaskQuery) (t : Task) : Bool :=
  (match q.status with | none => true | some c => matchesStatusCond c t.status) &&
  (match q.priority with | none => true | some x => t.priority == x) &&
  (match q.category with | none => true | some x => t.category == x) &&
  (match q.assignedTo with | none => true | some x => t.assignedTo == some x) &&
  (match q.search with
   | none => true
   | some s =>
       strContainsCI t.title s ||
       (match t.description with | some d => strContainsCI d s | none => false)) &&
  (match q.dueLt with
   | none => true
   | some n => (match t.dueDate with | some d => decide (d < n) | none => false))

/-- Task.find(query): every stored task matching the structured query (the
sort/skip/limit pipeline is applied to this set afterwards, and
countDocuments(query) counts exactly this set). -/
def findTasks (st : List Task) (q : TaskQuery) : List Task :=
  st.filter (matchesQuery q)

/-- skip = (parseInt(page) - 1) * parseInt(limit) of routes/tasks.js line 48. -/
def tasksSkip (page limit : Nat) : Nat := (page - 1) * limit

/-- Pagination envelope of GET /api/tasks (routes/tasks.js lines 67-73). -/
structure TasksPagination where
  currentPage : Nat
  totalPages : Nat
  totalTasks : Nat
  hasNextPage : Bool
  hasPrevPage : Bool
deriving DecidableEq

/-- totalPages = Math.ceil(total / limit); hasNextPage = page < totalPages;
hasPrevPage = page > 1 (routes/tasks.js lines 62 and 67-73). -/
def tasksPaginationOf (page limit total : Nat) : TasksPagination :=
  let totalPages := mathCeilDiv total limit
  { currentPage := page, totalPages := totalPages, totalTasks := total,
    hasNextPage := decide (page < totalPages), hasPrevPage := decide (1 < page) }

end TM

/-- Spec-side predicate for C2: the non-status filters of a task list
request (priority, category, assignedTo and search), exactly as the claim
words them. -/
def nonStatusFilters (p : TM.ListParams) (t : TM.Task) : Bool :=
  (match p.priority with | none => true | some x => t.priority == x) &&
  (match p.category with | none => true | some x => t.category == x) &&
  (match p.assignedTo with | none => true | some x => t.assignedTo == some x) &&
  (match p.search with
   | none => true
   | some s =>
       strContainsCI t.title s ||
       (match t.description with | some d => strContainsCI d s | none => false))

/-- C8 request body: only a title and priority high, no optional fields. -/
def onlyTitleHigh (title : String) : TM.TaskBody :=
  { title := some title, description := none, status := none,
    priority := some "high", category := none, dueDate := none,
    assignedTo := none, tags := none, estimatedHours := none, actualHours := none }

/-- The document produced by the C8 create request: destructuring and
schema defaults filled in, untouched by the pre-save middleware since the
status is not completed. -/
def c8Created (title : String) (now : Nat) (fresh : String) : TM.Task :=
  { id := fresh, title := title, description := none, status := "pending",
    priority := "high", category := "other", dueDate := none,
    assignedTo := none, tags := [], completedAt := none,
    estimatedHours := none, actualHours := none,
    createdAt := now, updatedAt := now }

/-- C1 fixture: a completed task whose completedAt was set at time 5. -/
def c1Done : TM.Task :=
  { id := "a", title := "t", description := none, status := "completed",
    priority := "medium", category := "other", dueDate := none,
    assignedTo := none, tags := [], completedAt := some 5,
    estimatedHours := none, actualHours := none, createdAt := 0, updatedAt := 0 }

/-- C1 fixture: a pending task with no completedAt. -/
def c1Open : TM.Task := { c1Done with id := "b", status := "pending", completedAt := none }

/-- C1 fixture: a PUT body that only sets status completed. -/
def c1StatusBody : TM.TaskBody :=
  { title := none, description := none, status := some "completed",
    priority := none, category := none, dueDate := none, assignedTo := none,
    tags := none, estimatedHours := none, actualHours := none }

/-- C2 fixture: task A of the spec example, due at 5, pending. -/
def c2TaskA : TM.Task :=
  { id := "a", title := "A", description := none, status := "pending",
    priority := "medium", category := "other", dueDate := some 5,
    assignedTo := none, tags := [], completedAt := none,
    estimatedHours := none, actualHours := none, createdAt := 0, updatedAt := 0 }

/-- C2 fixture: task B, due at 5 but completed. -/
def c2TaskB : TM.Task :=
  { c2TaskA with id := "b", title := "B", status := "completed", completedAt := some 6 }

/-- C2 fixture: task C, due at 20 (the future), pending. -/
def c2TaskC : TM.Task := { c2TaskA with id := "c", title := "C", dueDate := some 20 }

/-- C2 fixture: overdue=true combined with an explicit status filter. -/
def c2Params : TM.ListParams :=
  { page := 1, limit := 10, status := some "pending", priority := none,
    category := none, assignedTo := none, search := none,
    sortBy := "createdAt", sortOrder := "desc", overdue := "true" }

/-- C3 fixture: page 3, limit 7, no filters. -/
def c3Params : TM.ListParams :=
  { page := 3, limit := 7, status := none, priority := none, category := none,
    assignedTo := none, search := none, sortBy := "createdAt",
    sortOrder := "desc", overdue := "" }

/-- C3 fixture: a store of one task so the filtered count is concrete. -/
def c3Store : List TM.Task := [c2TaskA]

/-- C4 fixture: an empty standalone store. -/
def c4Store : US.StoreU := { users := [], tasks := [], projects := [] }

/-- C4 fixture: a task creation naming the nonexistent user u9. -/
def c4Body : US.TaskBodyU :=
  { title := some "Fix bug", description := none, priority := none,
    status := none, dueDate := none, userId := some "u9" }

/-- C4 fixture for the main API: assignedTo is a well-formed ObjectId that
matches no user. -/
def c4TMBody : TM.TaskBody :=
  { title := some "T", description := none, status := none, priority := none,
    category := none, dueDate := none,
    assignedTo := some "ffffffffffffffffffffffff", tags := none,
    estimatedHours := none, actualHours := none }

/-- C5 fixtures: two users, three tasks and two projects, two of the tasks
and one project owned by u1. -/
def c5U1 : US.UserU :=
  { id := "u1", username := "ann", email := "ann@x.com", password := "p1",
    isActive := true, createdAt := 0 }

def c5U2 : US.UserU :=
  { id := "u2", username := "bo", email := "bo@x.com", password := "p2",
    isActive := true, createdAt := 0 }

def c5T1 : US.TaskU :=
  { id := "t1", title := "one", description := none, priority := "medium",
    status := "pending", dueDate := none, userId := "u1", createdAt := 0, updatedAt := 0 }

def c5T2 : US.TaskU := { c5T1 with id := "t2", title := "two" }

def c5T3 : US.TaskU := { c5T1 with id := "t3", title := "three", userId := "u2" }

def c5P1 : US.ProjectU :=
  { id := "p1", name := "alpha", description := none, status := "active",
    startDate := 0, endDate := none, userId := "u1", tasks := [], createdAt := 0 }

def c5P2 : US.ProjectU := { c5P1 with id := "p2", name := "beta", userId := "u2" }

def c5Store : US.StoreU :=
  { users := [c5U1, c5U2], tasks := [c5T1, c5T2, c5T3], projects := [c5P1, c5P2] }

/-- C6 fixture: the first created user. -/
def c6Alice : US.UserU :=
  { id := "u1", username := "alice", email := "a@x.com", password := "pw123456",
    isActive := true, createdAt := 0 }

/-- C6 fixture: the store after the first creation. -/
def c6Store : US.StoreU := { users := [c6Alice], tasks := [], projects := [] }

/-- C6 fixture: a second creation with a fresh username but the same email. -/
def c6Body : US.UserBodyU :=
  { username := some "bob", email := some "a@x.com", password := some "secret1" }

/-- C7 fixture: a body that fails validation on two fields (status and
priority) at once. -/
def c7Body : TM.TaskBody :=
  { title := some "ok", description := none, status := some "done",
    priority := some "extreme", category := none, dueDate := none,
    assignedTo := none, tags := none, estimatedHours := none, actualHours := none }

/-- C9 fixtures: two standalone users identical except for the password. -/
def c9u1 : US.UserU :=
  { id := "u1", username := "ann", email := "ann@x.com", password := "secretA",
    isActive := true, createdAt := 3 }

def c9u2 : US.UserU := { c9u1 with password := "secretB" }

/-- C9 fixtures: two main-API users identical except for the password. -/
def c9v1 : TM.User :=
  { id := "v1", name := "Ann", email := "ann@x.com", password := "hashA",
    role := "user", department := none, position := some "dev", phone := none,
    isActive := true }

def c9v2 : TM.User := { c9v1 with password := "hashB" }

/-- C10 fixture: a store with one user and one task, none of which matches
the id zz. -/
def c10Store : US.StoreU := { users := [c5U1], tasks := [c5T1], projects := [c5P1] }

theorem mathCeilDiv_le_iff (a b n : Nat) (hb : 0 < b) :
    mathCeilDiv a b ≤ n ↔ a ≤ n * b := by
  have hbq : (0 : ℚ) < (b : ℚ) := by exact_mod_cast hb
  rw [mathCeilDiv, Nat.ceil_le, div_le_iff₀ hbq]
  exact_mod_cast Iff.rfl

theorem lt_mathCeilDiv_iff (a b n : Nat) (hb : 0 < b) :
    n < mathCeilDiv a b ↔ n * b < a := by
  constructor
  · intro h
    by_contra hc
    push_neg at hc
    have := (mathCeilDiv_le_iff a b n hb).2 hc
    omega
  · intro h
    by_contra hc
    push_neg at hc
    have := (mathCeilDiv_le_iff a b n hb).1 hc
    omega

theorem mathCeilDiv_eq_div_add (a b : Nat) (hb : 0 < b) :
    mathCeilDiv a b = a / b + (if a % b = 0 then 0 else 1) := by
  have hdm := Nat.div_add_mod a b
  have hml := Nat.mod_lt a hb
  apply Nat.le_antisymm
  · rw [mathCeilDiv_le_iff _ _ _ hb]
    by_cases h0 : a % b = 0
    · rw [if_pos h0, Nat.add_zero, Nat.mul_comm]
      omega
    · rw [if_neg h0]
      calc a = b * (a / b) + a % b := hdm.symm
        _ ≤ b * (a / b) + b := by omega
        _ = (a / b + 1) * b := by ring
  · by_cases h0 : a % b = 0
    · rw [if_pos h0, Nat.add_zero]
      by_cases hq : a / b = 0
      · omega
      · have hstep : a / b - 1 < mathCeilDiv a b := by
          rw [lt_mathCeilDiv_iff _ _ _ hb]
          have hpos : 0 < (a / b) * b := Nat.mul_pos (Nat.pos_of_ne_zero hq) hb
          have hsub : (a / b - 1) * b = (a / b) * b - b := by
            rw [Nat.sub_mul, Nat.one_mul]
          have hlt : (a / b) * b - b < (a / b) * b := Nat.sub_lt hpos hb
          have ha : a = (a / b) * b := by rw [Nat.mul_comm]; omega
          omega
        omega
    · rw [if_neg h0]
      have hstep : a / b < mathCeilDiv a b := by
        rw [lt_mathCeilDiv_iff _ _ _ hb, Nat.mul_comm]
        omega
      omega

/-- Splitting a list length by a Boolean filter and its complement. -/
theorem length_filter_split {α : Type} (l : List α) (p : α → Bool) :
    l.length = (l.filter p).length + (l.filter (fun a => !(p a))).length := by
  induction l with
  | nil => rfl
  | cons a t ih =>
      by_cases h : p a = true
      · simp [List.filter_cons, h, ih]
        omega
      · simp [List.filter_cons, h, ih]
        omega

/-- If no element of the front list satisfies the predicate, `find?` over an
append continues into the back list. -/
theorem find?_append_of_none {α : Type} {p : α → Bool} {l1 l2 : List α}
    (h : l1.find? p = none) : (l1 ++ l2).find? p = l2.find? p := by
  induction l1 with
  | nil => rfl
  | cons a t ih =>
      rw [List.find?_cons] at h
      cases hpa : p a with
      | true => rw [hpa] at h; simp at h
      | false =>
          rw [hpa] at h
          simp only [List.cons_append, List.find?_cons, hpa]
          exact ih h

/-- C1: the claim states that after create, full update (PUT) and
status-only patch (PATCH) the stored record satisfies completedAt nonnull
iff status is completed.  The code breaks it on both update paths: PATCH
of a completed task back to pending keeps the stale completedAt (the
conditional spread only ever adds the key), and PUT to completed leaves
completedAt null (findByIdAndUpdate bypasses the pre-save middleware).
This theorem evaluates both handlers at the failing inputs. -/
theorem c1_completedAt_invariant_broken :
    ((TM.patchStatus [c1Done] "a" "pending" 10).2.length = 1 ∧
      ∀ t ∈ (TM.patchStatus [c1Done] "a" "pending" 10).2,
        t.status = "pending" ∧ t.completedAt = some 5 ∧ ¬ TM.completedAtInvariant t) ∧
    ((TM.putTask [] [c1Open] "b" c1StatusBody 10).2.length = 1 ∧
      ∀ t ∈ (TM.putTask [] [c1Open] "b" c1StatusBody 10).2,
        t.status = "completed" ∧ t.completedAt = none ∧ ¬ TM.completedAtInvariant t) := by
  decide

/-- C10: deleting a user id that is not in the store answers 404 and
leaves every collection untouched; the cascade only runs after the user
was found and removed. -/
theorem c10_delete_missing_user_404 (st : US.StoreU) (uid : String)
    (h : ∀ u ∈ st.users, u.id ≠ uid) :
    (US.deleteUserU st uid).1.status = 404 ∧ (US.deleteUserU st uid).2 = st := by
  have hf : st.users.find? (fun u => u.id == uid) = none := by
    rw [List.find?_eq_none]
    intro u hu
    simpa using h u hu
  simp [US.deleteUserU, hf]

theorem c10_witness :
    (∀ u ∈ c10Store.users, u.id ≠ "zz") ∧
    ((US.deleteUserU c10Store "zz").1.status = 404 ∧
     (US.deleteUserU c10Store "zz").2 = c10Store) :=
  ⟨by decide, c10_delete_missing_user_404 c10Store "zz" (by decide)⟩

/-- C7: when the create rule table reports at least one field error, the
route answers 400 before the handler (and hence persistence) runs, the
store is unchanged, and the response carries every collected field error,
not only the first. -/
theorem c7_validation_aggregates_all_errors (users : List TM.User)
    (st : List TM.Task) (b : TM.TaskBody) (now : Nat) (fresh : String)
    (h : TM.validateTaskCreate now b ≠ []) :
    (TM.postTasksEndpoint users st b now fresh).2 = st ∧
    (TM.postTasksEndpoint users st b now fresh).1.status = 400 ∧
    (TM.postTasksEndpoint users st b now fresh).1.success = false ∧
    (TM.postTasksEndpoint users st b now fresh).1.errors = TM.validateTaskCreate now b ∧
    ∀ e ∈ TM.validateTaskCreate now b,
      e ∈ (TM.postTasksEndpoint users st b now fresh).1.errors := by
  cases hv : TM.validateTaskCreate now b with
  | nil => exact absurd hv h
  | cons e es =>
      refine ⟨?_, ?_, ?_, ?_, ?_⟩ <;>
        simp [TM.postTasksEndpoint, hv]

theorem c7_witness :
    TM.validateTaskCreate 0 c7Body ≠ [] ∧
    ((TM.postTasksEndpoint [] [] c7Body 0 "t1").2 = [] ∧
     (TM.postTasksEndpoint [] [] c7Body 0 "t1").1.status = 400 ∧
     (TM.postTasksEndpoint [] [] c7Body 0 "t1").1.success = false ∧
     (TM.postTasksEndpoint [] [] c7Body 0 "t1").1.errors = TM.validateTaskCreate 0 c7Body ∧
     ∀ e ∈ TM.validateTaskCreate 0 c7Body,
       e ∈ (TM.postTasksEndpoint [] [] c7Body 0 "t1").1.errors) :=
  ⟨by decide, c7_validation_aggregates_all_errors [] [] c7Body 0 "t1" (by decide)⟩

/-- C6 counterexample: the claim says a duplicate-email creation returns
HTTP 409; the global error handler of the standalone server maps the
Mongo duplicate-key error to HTTP 400, so at this concrete input the
status is 400, not 409 (the message does identify email and the store is
unchanged). -/
theorem c6_counterexample :
    (US.createUserU c6Store c6Body "u2" 1).1.status = 400 ∧
    ¬ (US.createUserU c6Store c6Body "u2" 1).1.status = 409 ∧
    (US.createUserU c6Store c6Body "u2" 1).1.message = US.duplicateMsg "email" ∧
    (US.createUserU c6Store c6Body "u2" 1).2 = c6Store := by
  decide

/-- C6 (amended): a second creation with a complete body, a fresh
username and an email already in the store answers HTTP 400 (not 409)
with the message email already exists, and the store, in particular the
first user record, is unchanged. -/
theorem c6_duplicate_email_400 (st : US.StoreU) (b : US.UserBodyU)
    (fresh : String) (now : Nat)
    (hu : b.username.getD "" ≠ "") (he : b.email.getD "" ≠ "")
    (hp : b.password.getD "" ≠ "")
    (hnou : ∀ u ∈ st.users, u.username ≠ b.username.getD "")
    (hdup : ∃ u ∈ st.users, u.email = b.email.getD "") :
    (US.createUserU st b fresh now).1.status = 400 ∧
    (US.createUserU st b fresh now).1.message = US.duplicateMsg "email" ∧
    (US.createUserU st b fresh now).2 = st := by
  have hcond : ¬ (b.username.getD "" = "" ∨ b.email.getD "" = "" ∨
      b.password.getD "" = "") := by
    tauto
  have hfu : st.users.find? (fun u => u.username == b.username.getD "") = none := by
    rw [List.find?_eq_none]
    intro u hu2
    simpa using hnou u hu2
  obtain ⟨u0, hu0, he0⟩ := hdup
  obtain ⟨v, hv⟩ : ∃ v, st.users.find? (fun u => u.email == b.email.getD "") = some v := by
    cases hfind : st.users.find? (fun u => u.email == b.email.getD "") with
    | some v => exact ⟨v, rfl⟩
    | none =>
        rw [List.find?_eq_none] at hfind
        exact absurd (show (u0.email == b.email.getD "") = true by simp [he0])
          (hfind u0 hu0)
  simp [US.createUserU, hcond, hfu, hv]

theorem c6_witness :
    ((∀ u ∈ c6Store.users, u.username ≠ c6Body.username.getD "") ∧
     (∃ u ∈ c6Store.users, u.email = c6Body.email.getD "")) ∧
    ((US.createUserU c6Store c6Body "u2" 1).1.status = 400 ∧
     (US.createUserU c6Store c6Body "u2" 1).1.message = US.duplicateMsg "email" ∧
     (US.createUserU c6Store c6Body "u2" 1).2 = c6Store) :=
  ⟨⟨by decide, by decide⟩,
   c6_duplicate_email_400 c6Store c6Body "u2" 1 (by decide) (by decide)
     (by decide) (by decide) (by decide)⟩

/-- C4 counterexample: the claim says both create paths answer 400 with
the message Assigned user not found; the standalone POST /api/tasks
instead answers 400 with Invalid userId, shown here at a concrete
dangling reference (no task is persisted). -/
theorem c4_counterexample :
    (US.createTaskU c4Store c4Body "t1" 0).1.status = 400 ∧
    (US.createTaskU c4Store c4Body "t1" 0).1.message ≠ "Assigned user not found" ∧
    (US.createTaskU c4Store c4Body "t1" 0).1.message = "Invalid userId" ∧
    (US.createTaskU c4Store c4Body "t1" 0).2 = c4Store := by
  decide

/-- C4 (amended): a create request whose assignedTo / userId matches no
stored user is rejected with HTTP 400 before anything is persisted; the
message is Assigned user not found on the main API and Invalid userId on
the standalone server. -/
theorem c4_dangling_assignee_400 (users : List TM.User) (st : List TM.Task)
    (b : TM.TaskBody) (now : Nat) (fresh : String) (uid : String)
    (ha : b.assignedTo = some uid) (hne : uid ≠ "")
    (hno : ∀ u ∈ users, u.id ≠ uid)
    (stU : US.StoreU) (bU : US.TaskBodyU) (freshU : String) (nowU : Nat)
    (uidU : String) (htU : bU.title.getD "" ≠ "") (haU : bU.userId = some uidU)
    (hneU : uidU ≠ "") (hnoU : ∀ u ∈ stU.users, u.id ≠ uidU) :
    ((TM.createTask users st b now fresh).1.status = 400 ∧
     (TM.createTask users st b now fresh).1.message = "Assigned user not found" ∧
     (TM.createTask users st b now fresh).2 = st) ∧
    ((US.createTaskU stU bU freshU nowU).1.status = 400 ∧
     (US.createTaskU stU bU freshU nowU).1.message = "Invalid userId" ∧
     (US.createTaskU stU bU freshU nowU).2 = stU) := by
  constructor
  · have hfind : users.find? (fun u => u.id == uid) = none := by
      rw [List.find?_eq_none]
      intro u hu
      simpa using hno u hu
    simp [TM.createTask, ha, hfind, hne]
  · have hcond : ¬ (bU.title.getD "" = "" ∨ bU.userId.getD "" = "") := by
      rw [haU]
      simp [htU, hneU]
    have hfind : stU.users.find? (fun u => u.id == bU.userId.getD "") = none := by
      rw [List.find?_eq_none]
      intro u hu
      rw [haU]
      simpa using hnoU u hu
    simp [US.createTaskU, hcond, hfind]

theorem c4_witness :
    (c4TMBody.assignedTo = some "ffffffffffffffffffffffff" ∧
     c4Body.userId = some "u9") ∧
    (((TM.createTask [] [] c4TMBody 0 "t1").1.status = 400 ∧
      (TM.createTask [] [] c4TMBody 0 "t1").1.message = "Assigned user not found" ∧
      (TM.createTask [] [] c4TMBody 0 "t1").2 = []) ∧
     ((US.createTaskU c4Store c4Body "t1" 0).1.status = 400 ∧
      (US.createTaskU c4Store c4Body "t1" 0).1.message = "Invalid userId" ∧
      (US.createTaskU c4Store c4Body "t1" 0).2 = c4Store)) :=
  ⟨⟨rfl, rfl⟩,
   c4_dangling_assignee_400 [] [] c4TMBody 0 "t1" "ffffffffffffffffffffffff" rfl
     (by decide) (by decide) c4Store c4Body "t1" 0 "u9" (by decide) rfl
     (by decide) (by decide)⟩

/-- When the mapped ids of a user list are distinct, erasing the first
match of an id equals filtering out that id entirely. -/
theorem eraseP_id_eq_filter (l : List US.UserU) (uid : String)
    (hnd : (l.map (fun u => u.id)).Nodup) :
    l.eraseP (fun u => u.id == uid) = l.filter (fun u => !(u.id == uid)) := by
  induction l with
  | nil => rfl
  | cons a t ih =>
      rw [List.map_cons, List.nodup_cons] at hnd
      obtain ⟨hna, hnt⟩ := hnd
      by_cases h : a.id = uid
      · have hb : (a.id == uid) = true := by simp [h]
        rw [List.eraseP_cons, List.filter_cons, hb]
        simp only [cond_true, Bool.not_true, Bool.false_eq_true, if_false]
        rw [eq_comm, List.filter_eq_self]
        intro u hu
        have : u.id ≠ uid := by
          intro heq
          exact hna (by rw [h, ← heq]; exact List.mem_map_of_mem _ hu)
        simpa using this
      · have hb : (a.id == uid) = false := by simp [h]
        rw [List.eraseP_cons, List.filter_cons, hb]
        simp [ih hnt]

/-- C5: deleting an existing user (distinct user ids) answers 200 and
removes exactly the user together with every task and every project owned
by it, leaving all other records unchanged; the removed dependents number
N tasks plus M projects, and a subsequent task list query filtered by the
deleted user id returns zero results. -/
theorem c5_user_delete_cascades (st : US.StoreU) (uid : String)
    (hmem : ∃ u ∈ st.users, u.id = uid)
    (hnd : (st.users.map (fun u => u.id)).Nodup) :
    (US.deleteUserU st uid).1.status = 200 ∧
    (US.deleteUserU st uid).2.users = st.users.filter (fun u => !(u.id == uid)) ∧
    (US.deleteUserU st uid).2.tasks = st.tasks.filter (fun t => !(t.userId == uid)) ∧
    (US.deleteUserU st uid).2.projects = st.projects.filter (fun p => !(p.userId == uid)) ∧
    st.tasks.length = (st.tasks.filter (fun t => t.userId == uid)).length +
      (US.deleteUserU st uid).2.tasks.length ∧
    st.projects.length = (st.projects.filter (fun p => p.userId == uid)).length +
      (US.deleteUserU st uid).2.projects.length ∧
    (US.listTasksU (US.deleteUserU st uid).2
      { page := 1, limit := 10, status := none, priority := none,
        userId := some uid }).data = [] := by
  obtain ⟨u0, hu0, hid⟩ := hmem
  obtain ⟨v, hv⟩ : ∃ v, st.users.find? (fun u => u.id == uid) = some v := by
    cases hfind : st.users.find? (fun u => u.id == uid) with
    | some v => exact ⟨v, rfl⟩
    | none =>
        rw [List.find?_eq_none] at hfind
        exact absurd (show (u0.id == uid) = true by simp [hid]) (hfind u0 hu0)
  unfold US.deleteUserU
  rw [hv]
  refine ⟨rfl, eraseP_id_eq_filter _ _ hnd, rfl, rfl, ?_, ?_, ?_⟩
  · exact length_filter_split st.tasks (fun t => t.userId == uid)
  · exact length_filter_split st.projects (fun p => p.userId == uid)
  · have hnil : US.findTasksU
        { users := st.users.eraseP (fun u => u.id == uid),
          tasks := st.tasks.filter (fun t => !(t.userId == uid)),
          projects := st.projects.filter (fun p => !(p.userId == uid)) }
        { page := 1, limit := 10, status := none, priority := none,
          userId := some uid } = [] := by
      unfold US.findTasksU
      rw [List.filter_eq_nil_iff]
      intro t ht
      have hm := (List.mem_filter.mp ht).2
      simp only [US.taskQueryU, Bool.true_and]
      simpa using hm
    simp [US.listTasksU, hnil]

theorem c5_witness :
    ((∃ u ∈ c5Store.users, u.id = "u1") ∧
     (c5Store.users.map (fun u => u.id)).Nodup) ∧
    ((US.deleteUserU c5Store "u1").1.status = 200 ∧
     (US.deleteUserU c5Store "u1").2.users = c5Store.users.filter (fun u => !(u.id == "u1")) ∧
     (US.deleteUserU c5Store "u1").2.tasks = c5Store.tasks.filter (fun t => !(t.userId == "u1")) ∧
     (US.deleteUserU c5Store "u1").2.projects = c5Store.projects.filter (fun p => !(p.userId == "u1")) ∧
     c5Store.tasks.length = (c5Store.tasks.filter (fun t => t.userId == "u1")).length +
       (US.deleteUserU c5Store "u1").2.tasks.length ∧
     c5Store.projects.length = (c5Store.projects.filter (fun p => p.userId == "u1")).length +
       (US.deleteUserU c5Store "u1").2.projects.length ∧
     (US.listTasksU (US.deleteUserU c5Store "u1").2
       { page := 1, limit := 10, status := none, priority := none,
         userId := some "u1" }).data = []) :=
  ⟨⟨by decide, by decide⟩,
   c5_user_delete_cascades c5Store "u1" (by decide) (by decide)⟩

/-- C3: for valid page and limit, both list endpoints compute
skip = (page - 1) * limit, and the pagination envelopes are consistent:
currentPage echoes the request, totalTasks / total is the count of
matching records, totalPages (pages) equals the ceiling of total over
limit, and on the main API hasNextPage and hasPrevPage compare the
current page against totalPages and 1. -/
theorem c3_pagination_consistent (now : Nat) (st : List TM.Task)
    (p : TM.ListParams) (stU : US.StoreU) (sp : Option String)
    (hp : 1 ≤ p.page) (hl : 1 ≤ p.limit) (hl100 : p.limit ≤ 100) :
    TM.tasksSkip p.page p.limit = (p.page - 1) * p.limit ∧
    (TM.tasksPaginationOf p.page p.limit
      (TM.findTasks st (TM.buildTaskQuery now p)).length).currentPage = p.page ∧
    (TM.tasksPaginationOf p.page p.limit
      (TM.findTasks st (TM.buildTaskQuery now p)).length).totalTasks =
      (TM.findTasks st (TM.buildTaskQuery now p)).length ∧
    (TM.tasksPaginationOf p.page p.limit
      (TM.findTasks st (TM.buildTaskQuery now p)).length).totalPages =
      (TM.findTasks st (TM.buildTaskQuery now p)).length / p.limit +
        (if (TM.findTasks st (TM.buildTaskQuery now p)).length % p.limit = 0
         then 0 else 1) ∧
    (TM.tasksPaginationOf p.page p.limit
      (TM.findTasks st (TM.buildTaskQuery now p)).length).hasNextPage =
      decide (p.page < (TM.tasksPaginationOf p.page p.limit
        (TM.findTasks st (TM.buildTaskQuery now p)).length).totalPages) ∧
    (TM.tasksPaginationOf p.page p.limit
      (TM.findTasks st (TM.buildTaskQuery now p)).length).hasPrevPage =
      decide (1 < p.page) ∧
    US.skipU p.page p.limit = (p.page - 1) * p.limit ∧
    (US.listUsersU stU p.page p.limit sp).pagination.page = p.page ∧
    (US.listUsersU stU p.page p.limit sp).pagination.limit = p.limit ∧
    (US.listUsersU stU p.page p.limit sp).pagination.total =
      (US.usersFilteredU stU sp).length ∧
    (US.listUsersU stU p.page p.limit sp).pagination.pages =
      (US.usersFilteredU stU sp).length / p.limit +
        (if (US.usersFilteredU stU sp).length % p.limit = 0 then 0 else 1) := by
  refine ⟨rfl, rfl, rfl, ?_, rfl, rfl, rfl, rfl, rfl, rfl, ?_⟩
  · exact mathCeilDiv_eq_div_add _ _ hl
  · exact mathCeilDiv_eq_div_add _ _ hl

theorem c3_witness :
    (1 ≤ c3Params.page ∧ 1 ≤ c3Params.limit ∧ c3Params.limit ≤ 100) ∧
    (TM.tasksSkip c3Params.page c3Params.limit = (c3Params.page - 1) * c3Params.limit ∧
     (TM.tasksPaginationOf c3Params.page c3Params.limit
       (TM.findTasks c3Store (TM.buildTaskQuery 0 c3Params)).length).currentPage = c3Params.page ∧
     (TM.tasksPaginationOf c3Params.page c3Params.limit
       (TM.findTasks c3Store (TM.buildTaskQuery 0 c3Params)).length).totalTasks =
       (TM.findTasks c3Store (TM.buildTaskQuery 0 c3Params)).length ∧
     (TM.tasksPaginationOf c3Params.page c3Params.limit
       (TM.findTasks c3Store (TM.buildTaskQuery 0 c3Params)).length).totalPages =
       (TM.findTasks c3Store (TM.buildTaskQuery 0 c3Params)).length / c3Params.limit +
         (if (TM.findTasks c3Store (TM.buildTaskQuery 0 c3Params)).length % c3Params.limit = 0
          then 0 else 1) ∧
     (TM.tasksPaginationOf c3Params.page c3Params.limit
       (TM.findTasks c3Store (TM.buildTaskQuery 0 c3Params)).length).hasNextPage =
       decide (c3Params.page < (TM.tasksPaginationOf c3Params.page c3Params.limit
         (TM.findTasks c3Store (TM.buildTaskQuery 0 c3Params)).length).totalPages) ∧
     (TM.tasksPaginationOf c3Params.page c3Params.limit
       (TM.findTasks c3Store (TM.buildTaskQuery 0 c3Params)).length).hasPrevPage =
       decide (1 < c3Params.page) ∧
     US.skipU c3Params.page c3Params.limit = (c3Params.page - 1) * c3Params.limit ∧
     (US.listUsersU c5Store c3Params.page c3Params.limit none).pagination.page = c3Params.page ∧
     (US.listUsersU c5Store c3Params.page c3Params.limit none).pagination.limit = c3Params.limit ∧
     (US.listUsersU c5Store c3Params.page c3Params.limit none).pagination.total =
       (US.usersFilteredU c5Store none).length ∧
     (US.listUsersU c5Store c3Params.page c3Params.limit none).pagination.pages =
       (US.usersFilteredU c5Store none).length / c3Params.limit +
         (if (US.usersFilteredU c5Store none).length % c3Params.limit = 0 then 0 else 1)) :=
  ⟨⟨by decide, by decide, by decide⟩,
   c3_pagination_consistent 0 c3Store c3Params c5Store none
     (by decide) (by decide) (by decide)⟩

/-- C2: with overdue=true the list query selects exactly the stored tasks
whose dueDate lies strictly in the past and whose status is not
completed, intersected with the remaining non-status filters; and an
explicit status parameter never changes the selected set, because the
overdue branch overwrites the status key of the query object. -/
theorem c2_overdue_filter_exact (now : Nat) (st : List TM.Task)
    (p : TM.ListParams) (hov : p.overdue = "true") :
    (∀ t, t ∈ TM.findTasks st (TM.buildTaskQuery now p) ↔
      (t ∈ st ∧ (∃ d, t.dueDate = some d ∧ d < now) ∧
       t.status ≠ "completed" ∧ nonStatusFilters p t = true)) ∧
    (∀ s, TM.findTasks st (TM.buildTaskQuery now { p with status := s }) =
          TM.findTasks st (TM.buildTaskQuery now p)) := by
  have hq : TM.buildTaskQuery now p =
      { status := some TM.StatusCond.neCompleted, priority := p.priority,
        category := p.category, assignedTo := p.assignedTo, search := p.search,
        dueLt := some now } := by
    unfold TM.buildTaskQuery
    rw [if_pos hov]
  constructor
  · intro t
    rw [hq]
    unfold TM.findTasks
    rw [List.mem_filter]
    unfold TM.matchesQuery TM.matchesStatusCond nonStatusFilters
    cases hdd : t.dueDate with
    | none => simp
    | some d =>
        simp only [Bool.and_eq_true, decide_eq_true_eq, bne_iff_ne, ne_eq,
          Option.some.injEq, exists_eq_left']
        tauto
  · intro s
    have hq2 : TM.buildTaskQuery now { p with status := s } =
        TM.buildTaskQuery now p := by
      rw [hq]
      unfold TM.buildTaskQuery
      rw [if_pos (show ({ p with status := s } : TM.ListParams).overdue = "true" from hov)]
    rw [hq2]

theorem c2_witness :
    c2Params.overdue = "true" ∧
    ((∀ t, t ∈ TM.findTasks [c2TaskA, c2TaskB, c2TaskC] (TM.buildTaskQuery 10 c2Params) ↔
       (t ∈ [c2TaskA, c2TaskB, c2TaskC] ∧ (∃ d, t.dueDate = some d ∧ d < 10) ∧
        t.status ≠ "completed" ∧ nonStatusFilters c2Params t = true)) ∧
     (∀ s, TM.findTasks [c2TaskA, c2TaskB, c2TaskC]
             (TM.buildTaskQuery 10 { c2Params with status := s }) =
           TM.findTasks [c2TaskA, c2TaskB, c2TaskC] (TM.buildTaskQuery 10 c2Params))) :=
  ⟨rfl, c2_overdue_filter_exact 10 [c2TaskA, c2TaskB, c2TaskC] c2Params rfl⟩

/-- C8: creating a task whose body carries only a (valid) title and
priority high, then fetching it by its id, yields a record with the
default status pending, the requested priority high, the schema default
category other and an isOverdue of false, since no due date exists. -/
theorem c8_roundtrip (users : List TM.User) (st : List TM.Task) (now : Nat)
    (fresh : String) (title : String)
    (hval : TM.validateTaskCreate now (onlyTitleHigh title) = [])
    (hfresh : ∀ t ∈ st, t.id ≠ fresh) :
    (TM.postTasksEndpoint users st (onlyTitleHigh title) now fresh).1.status = 201 ∧
    ∃ t, (TM.getTask (TM.postTasksEndpoint users st (onlyTitleHigh title) now fresh).2 fresh).status = 200 ∧
      (TM.getTask (TM.postTasksEndpoint users st (onlyTitleHigh title) now fresh).2 fresh).task = some t ∧
      t.status = "pending" ∧ t.priority = "high" ∧ t.category = "other" ∧
      TM.isOverdue now t = false := by
  have hpost : TM.postTasksEndpoint users st (onlyTitleHigh title) now fresh =
      TM.createTask users st (onlyTitleHigh title) now fresh := by
    unfold TM.postTasksEndpoint
    rw [hval]
  have hcreate : TM.createTask users st (onlyTitleHigh title) now fresh =
      ({ status := 201, success := true, message := "Task created successfully",
         errors := [], task := some (c8Created title now fresh) },
       st ++ [c8Created title now fresh]) := rfl
  have hnone : st.find? (fun t => t.id == fresh) = none := by
    rw [List.find?_eq_none]
    intro t ht
    simpa using hfresh t ht
  have hfind : (st ++ [c8Created title now fresh]).find? (fun t => t.id == fresh) =
      some (c8Created title now fresh) := by
    rw [find?_append_of_none hnone]
    simp [List.find?, c8Created]
  refine ⟨by rw [hpost, hcreate], c8Created title now fresh, ?_, ?_, rfl, rfl, rfl, rfl⟩
  · rw [hpost, hcreate]
    unfold TM.getTask
    rw [hfind]
  · rw [hpost, hcreate]
    unfold TM.getTask
    rw [hfind]

theorem c8_witness :
    TM.validateTaskCreate 0 (onlyTitleHigh "Write spec") = [] ∧
    ((TM.postTasksEndpoint [] [] (onlyTitleHigh "Write spec") 0 "id1").1.status = 201 ∧
     ∃ t, (TM.getTask (TM.postTasksEndpoint [] [] (onlyTitleHigh "Write spec") 0 "id1").2 "id1").status = 200 ∧
       (TM.getTask (TM.postTasksEndpoint [] [] (onlyTitleHigh "Write spec") 0 "id1").2 "id1").task = some t ∧
       t.status = "pending" ∧ t.priority = "high" ∧ t.category = "other" ∧
       TM.isOverdue 0 t = false) :=
  ⟨by decide, c8_roundtrip [] [] 0 "id1" "Write spec" (by decide) (by decide)⟩

/-- C9: the serialization applied on every user response path drops the
password and nothing else, so two users that differ only in their
password serialize identically; the list endpoint emits exactly the
serialized window of the filtered users, and any user payload emitted by
the create endpoint is the serialization of some user. -/
theorem c9_password_never_serialized (u1 u2 : US.UserU) (v1 v2 : TM.User)
    (h1 : u1.id = u2.id) (h2 : u1.username = u2.username)
    (h3 : u1.email = u2.email) (h4 : u1.isActive = u2.isActive)
    (h5 : u1.createdAt = u2.createdAt)
    (g1 : v1.id = v2.id) (g2 : v1.name = v2.name) (g3 : v1.email = v2.email)
    (g4 : v1.role = v2.role) (g5 : v1.department = v2.department)
    (g6 : v1.position = v2.position) (g7 : v1.phone = v2.phone)
    (g8 : v1.isActive = v2.isActive) :
    US.serializeUserU u1 = US.serializeUserU u2 ∧
    TM.getPublicProfile v1 = TM.getPublicProfile v2 ∧
    (∀ st page limit sp, (US.listUsersU st page limit sp).data =
      (((US.usersFilteredU st sp).drop (US.skipU page limit)).take limit).map
        US.serializeUserU) ∧
    (∀ st b fresh now pu, (US.createUserU st b fresh now).1.data = some pu →
      ∃ u, pu = US.serializeUserU u) := by
  refine ⟨?_, ?_, fun _ _ _ _ => rfl, ?_⟩
  · unfold US.serializeUserU
    rw [h1, h2, h3, h4, h5]
  · unfold TM.getPublicProfile
    rw [g1, g2, g3, g4, g5, g6, g7, g8]
  · intro st b fresh now pu h
    unfold US.createUserU at h
    split at h
    · simp at h
    · split at h
      · simp at h
      · split at h
        · simp at h
        · simp only [Option.some.injEq] at h
          exact ⟨_, h.symm⟩

theorem c9_witness :
    (c9u1.id = c9u2.id ∧ c9v1.id = c9v2.id) ∧
    (US.serializeUserU c9u1 = US.serializeUserU c9u2 ∧
     TM.getPublicProfile c9v1 = TM.getPublicProfile c9v2 ∧
     (∀ st page limit sp, (US.listUsersU st page limit sp).data =
       (((US.usersFilteredU st sp).drop (US.skipU page limit)).take limit).map
         US.serializeUserU) ∧
     (∀ st b fresh now pu, (US.createUserU st b fresh now).1.data = some pu →
       ∃ u, pu = US.serializeUserU u)) :=
  ⟨⟨rfl, rfl⟩,
   c9_password_never_serialized c9u1 c9u2 c9v1 c9v2 rfl rfl rfl rfl rfl
     rfl rfl rfl rfl rfl rfl rfl rfl⟩
